import Mathlib

/-!
Verification of the arbitrage scanning and execution dispatch logic of the
Flashloab_arbitrage repository against its specification.

The development shallowly embeds the decision-making code of the repository:

* `ImmediateArbitrageScanner._get_amounts_out` (src/main.py) — venue quote
  validation with its sane-price bound;
* `ImmediateArbitrageScanner._scan_pair_and_execute_immediately` (src/main.py)
  — the per-pair scan loop: quoting every DEX, evaluating both directions of
  every unordered DEX pair, the fee-adjusted profit calculation, the
  immediate-execution tiers, the execution-interval throttle and the
  last-execution timestamp update;
* `CexTradingAPI.place_market_order` and `CexTradingAPI.execute_cex_arbitrage`
  (src/cex_trading_api.py) — the exchange-vs-exchange execution strategy;
* `UnifiedArbitrageScanner.find_cex_cex_opportunities`,
  `UnifiedArbitrageScanner.execute_cex_arbitrage` and
  `UnifiedArbitrageScanner.get_top_opportunities`
  (src/unified_arbitrage_scanner.py).

Python floats are modelled exactly as rationals (ℚ), Python ints as ℕ/ℤ,
network interactions as explicit oracle functions, and caught exceptions as
`Option`/`Except` values.  No part of the embedding performs IO.
-/

namespace FlashArb

/-- Python `int(x)`: truncation of a real (here rational) number toward zero. -/
def pyInt (x : ℚ) : ℤ := if 0 ≤ x then ⌊x⌋ else ⌈x⌉

/-- Outcome of the raw `router_contract.functions.getAmountsOut(...).call()`
RPC as seen by `_get_amounts_out`: `none` models a transport error, a
malformed response or any other raised exception (all caught by the
`except Exception` handler), `some amounts` a successfully decoded reply. -/
abbrev RawCall := Option (List ℕ)

/-- Embedding of `ImmediateArbitrageScanner._get_amounts_out` (src/main.py,
lines 419-462), given the raw RPC outcome and the requested input amount.
Returns the amounts list only when it has at least two entries, a positive
final amount, and an implied price `amounts[-1] / amount_in` strictly inside
the sane bound `(1e-6, 1e6)`; every other case — including a raised
exception — yields `none`. -/
def get_amounts_out (raw : RawCall) (amount_in : ℕ) : Option (List ℕ) :=
  match raw with
  | none => none
  | some amounts =>
    if 2 ≤ amounts.length ∧ 0 < amounts.getLastD 0 then
      let price : ℚ := (amounts.getLastD 0 : ℚ) / (amount_in : ℚ)
      if 1 / 1000000 < price ∧ price < 1000000 then some amounts else none
    else none

/-- Scanner configuration values read from `self` in
`_scan_pair_and_execute_immediately`.  `gas_cost_tokens` is the integer
`int(self.gas_cost_bnb * 1e18 * 0.1)` computed once per evaluation. -/
structure ScanCfg where
  min_profit_threshold : ℚ
  immediate_execution_threshold : ℚ
  min_execution_interval : ℚ
  gas_cost_tokens : ℕ

/-- Fields of `ArbitrageOpportunity` (src/main.py) that the scanning and
dispatch logic reads; token symbols and the constant gas-estimate fields are
omitted. -/
structure Opportunity where
  amount_in : ℕ
  dex_buy : ℕ
  dex_sell : ℕ
  price_buy : ℚ
  price_sell : ℚ
  amount_out_buy : ℕ
  amount_out_sell : ℕ
  profit_percentage : ℚ
deriving DecidableEq

/-- Observable actions of one scan of one pair, in program order: an
opportunity passing the profit checks (`found`, the `[FOUND]` log and the
stats counter), a `[THROTTLED]` drop, an invocation of the execution
strategy with its success flag, and a `[QUEUED]` below-immediate-tier
opportunity. -/
inductive Event where
  | found (opp : Opportunity)
  | throttled (opp : Opportunity)
  | executed (opp : Opportunity) (success : Bool)
  | queued (opp : Opportunity)
deriving DecidableEq

/-- The opportunity an event is about. -/
def Event.opp : Event → Opportunity
  | .found o => o
  | .throttled o => o
  | .executed o _ => o
  | .queued o => o

/-- Control-flow outcome of processing one direction of one DEX pair inside
the nested scan loops: `ret` models `return True`, `skip` models the
`continue` of the throttle branch (which abandons the rest of this loop
body), `next` models falling through to the next direction/pair. -/
inductive StepRes where
  | ret (trace : List Event)
  | skip (trace : List Event)
  | next (trace : List Event)

/-- The round-trip profit evaluation of `_scan_pair_and_execute_immediately`
(src/main.py, lines 541-550): flash-loan fee `amount_in * 2 // 1000`, DEX
fees `amount_in * 3 // 1000`, the gas cost estimate, and
`real_profit = final_amount - (amount_in + total_fees)` with
`real_profit_percentage = real_profit / amount_in` when positive, else 0. -/
def profit_eval (cfg : ScanCfg) (amount_in final_amount : ℕ) : ℤ × ℚ :=
  let flashloan_fee := amount_in * 2 / 1000
  let dex_fees := amount_in * 3 / 1000
  let total_fees := flashloan_fee + dex_fees + cfg.gas_cost_tokens
  let amount_needed := amount_in + total_fees
  let real_profit : ℤ := (final_amount : ℤ) - (amount_needed : ℤ)
  let pct : ℚ := if 0 < real_profit then (real_profit : ℚ) / (amount_in : ℚ) else 0
  (real_profit, pct)

/-- A quote oracle: the raw `getAmountsOut` RPC reply of a given router for a
given input amount and path, standing for the chain state during the scan. -/
abbrev Rpc := ℕ → ℕ → List ℕ → RawCall

/-- First pass of `_scan_pair_and_execute_immediately`: query every DEX
router for the forward path `[token_in, token_out]` and record, in venue
order, each DEX whose reply is usable together with its output amount
(`dex_prices`). -/
def dex_prices (rpc : Rpc) (token_in token_out amount_in : ℕ)
    (venues : List ℕ) : List (ℕ × ℕ) :=
  venues.filterMap fun d =>
    match get_amounts_out (rpc d amount_in [token_in, token_out]) amount_in with
    | some amounts => if 2 ≤ amounts.length then some (d, amounts.getLastD 0) else none
    | none => none

/-- All ordered index pairs `i < j` of a list, in the iteration order of the
nested `for i / for j in range(i+1, ...)` loops. -/
def ordered_pairs : List α → List (α × α)
  | [] => []
  | x :: xs => (xs.map fun y => (x, y)) ++ ordered_pairs xs

/-- The `ArbitrageOpportunity` record built by the scan loop for a round
trip that bought on `buy` and re-sold its realized output on `sell` for
`final_amount`. -/
def mk_opportunity (cfg : ScanCfg) (amount_in : ℕ) (buy sell : ℕ × ℕ)
    (final_amount : ℕ) : Opportunity :=
  { amount_in := amount_in
    dex_buy := buy.1
    dex_sell := sell.1
    price_buy := (buy.2 : ℚ) / (amount_in : ℚ)
    price_sell := (sell.2 : ℚ) / (amount_in : ℚ)
    amount_out_buy := buy.2
    amount_out_sell := final_amount
    profit_percentage := (profit_eval cfg amount_in final_amount).2 }

/-- One direction of the round-trip evaluation inside the nested loops of
`_scan_pair_and_execute_immediately` (src/main.py, lines 526-637): re-quote
the sell DEX on the reverse path with the buy leg's realized output
`buy.2` as the input amount, evaluate the fee-adjusted profit, build the
`ArbitrageOpportunity`, and dispatch it through the tier/throttle logic.
`ex` is the `execute_arbitrage_trade` capability, `now` the value of
`time.time()`, and `last_execution_time` the scanner's throttle state. -/
def scan_direction (cfg : ScanCfg) (rpc : Rpc) (ex : Opportunity → Bool)
    (token_in token_out amount_in : ℕ) (now last_execution_time : ℚ)
    (buy sell : ℕ × ℕ) : StepRes :=
  match get_amounts_out (rpc sell.1 buy.2 [token_out, token_in]) buy.2 with
  | none => .next []
  | some reverse_amounts =>
    if 2 ≤ reverse_amounts.length then
      let final_amount := reverse_amounts.getLastD 0
      let real_profit := (profit_eval cfg amount_in final_amount).1
      let real_profit_percentage := (profit_eval cfg amount_in final_amount).2
      let min_profit_tokens := pyInt ((amount_in : ℚ) * cfg.min_profit_threshold)
      if min_profit_tokens < real_profit ∧ cfg.min_profit_threshold < real_profit_percentage then
        let opp : Opportunity := mk_opportunity cfg amount_in buy sell final_amount
        if cfg.immediate_execution_threshold ≤ real_profit_percentage then
          if now - last_execution_time < cfg.min_execution_interval then
            .skip [.found opp, .throttled opp]
          else if ex opp then
            .ret [.found opp, .executed opp true]
          else
            .next [.found opp, .executed opp false]
        else
          .next [.found opp, .queued opp]
      else
        .next []
    else
      .next []

/-- The nested venue-pair loops of `_scan_pair_and_execute_immediately`:
for each ordered pair `(x, y)` process direction 1 (buy on `x`, sell on
`y`) and, unless it returned or continued, direction 2 (buy on `y`, sell
on `x`).  Returns the event trace, the boolean result of the Python
function, and the final `last_execution_time` (set to `now` exactly where
the source assigns it, immediately before `return True`). -/
def scan_pairs_loop (cfg : ScanCfg) (rpc : Rpc) (ex : Opportunity → Bool)
    (token_in token_out amount_in : ℕ) (now : ℚ) :
    ℚ → List ((ℕ × ℕ) × (ℕ × ℕ)) → List Event × Bool × ℚ
  | last, [] => ([], false, last)
  | last, (x, y) :: rest =>
    match scan_direction cfg rpc ex token_in token_out amount_in now last x y with
    | .ret t => (t, true, now)
    | .skip t =>
      let r := scan_pairs_loop cfg rpc ex token_in token_out amount_in now last rest
      (t ++ r.1, r.2.1, r.2.2)
    | .next t =>
      match scan_direction cfg rpc ex token_in token_out amount_in now last y x with
      | .ret t2 => (t ++ t2, true, now)
      | .skip t2 =>
        let r := scan_pairs_loop cfg rpc ex token_in token_out amount_in now last rest
        (t ++ t2 ++ r.1, r.2.1, r.2.2)
      | .next t2 =>
        let r := scan_pairs_loop cfg rpc ex token_in token_out amount_in now last rest
        (t ++ t2 ++ r.1, r.2.1, r.2.2)

/-- Embedding of `ImmediateArbitrageScanner._scan_pair_and_execute_immediately`
(src/main.py, lines 477-755): gather `dex_prices`, and only when at least
two DEXes returned a usable quote run the nested pair loops; otherwise
return `False` with no events and an unchanged throttle timestamp. -/
def scan_pair_and_execute_immediately (cfg : ScanCfg) (rpc : Rpc)
    (ex : Opportunity → Bool) (venues : List ℕ)
    (token_in token_out amount_in : ℕ) (now last_execution_time : ℚ) :
    List Event × Bool × ℚ :=
  let dp := dex_prices rpc token_in token_out amount_in venues
  if 2 ≤ dp.length then
    scan_pairs_loop cfg rpc ex token_in token_out amount_in now last_execution_time
      (ordered_pairs dp)
  else
    ([], false, last_execution_time)

/-- Fields of the `TradeResult` dataclass (src/cex_trading_api.py) read by
the arbitrage logic; the timestamp field is omitted. -/
structure TradeResult where
  success : Bool
  order_id : Option String
  exchange : String
  symbol : String
  side : String
  amount : ℚ
  price : ℚ
  executed_amount : ℚ
  executed_price : ℚ
  fee : ℚ
  error_message : Option String
deriving DecidableEq

/-- A market-order request as sent to an exchange by
`CexTradingAPI.place_market_order` / `execute_cex_arbitrage`. -/
structure OrderRequest where
  exchange : String
  symbol : String
  side : String
  amount : ℚ
deriving DecidableEq

/-- The failure `TradeResult` that `place_market_order` builds in each of its
guard and exception branches: `success=False`, zero prices and executed
amounts, and the given error message. -/
def trade_fail (exchange symbol side : String) (amount : ℚ) (msg : String) : TradeResult :=
  { success := false
    order_id := none
    exchange := exchange
    symbol := symbol
    side := side
    amount := amount
    price := 0
    executed_amount := 0
    executed_price := 0
    fee := 0
    error_message := some msg }

/-- The exchanges configured in `CexTradingAPI._load_api_keys`; an exchange
name outside this list has no entry in `self.api_keys`. -/
def known_exchanges : List String :=
  ["Binance", "Bybit", "OKX", "KuCoin", "Gate.io", "Bitget", "MEXC", "HTX"]

/-- The `self.min_trade_amount` dictionary hard-coded in
`CexTradingAPI.__init__` (src/cex_trading_api.py, lines 66-71): 0.001 BTC,
0.01 ETH, 0.1 BNB, 10 USDT. -/
def min_trade_amount (currency : String) : Option ℚ :=
  if currency = "BTC" then some (1 / 1000)
  else if currency = "ETH" then some (1 / 100)
  else if currency = "BNB" then some (1 / 10)
  else if currency = "USDT" then some 10
  else none

/-- The `self.max_trade_amount` dictionary hard-coded in
`CexTradingAPI.__init__` (src/cex_trading_api.py, lines 58-64): 0.1 BTC,
2 ETH, 10 BNB, 5000 USDT. -/
def max_trade_amount (currency : String) : Option ℚ :=
  if currency = "BTC" then some (1 / 10)
  else if currency = "ETH" then some 2
  else if currency = "BNB" then some 10
  else if currency = "USDT" then some 5000
  else none

/-- `CexTradingAPI._validate_trade_amount`: the amount must lie within the
per-currency `[min_trade_amount, max_trade_amount]` bounds, with the
dictionary lookup defaults 0.001 and 1000. -/
def validate_trade_amount (currency : String) (amount : ℚ) : Bool :=
  let max_amount := (max_trade_amount currency).getD 1000
  let min_amount := (min_trade_amount currency).getD (1 / 1000)
  decide (min_amount ≤ amount ∧ amount ≤ max_amount)

/-- The base-currency extraction of `place_market_order`:
`symbol.split('/')[0]` when the symbol contains a slash (the characters
before the first slash), else the first three characters `symbol[:3]`,
expressed over the character list of the string. -/
def base_currency_of (symbol : String) : String :=
  if symbol.data.contains '/' then String.mk (symbol.data.takeWhile (· ≠ '/'))
  else String.mk (symbol.data.take 3)

/-- Embedding of `CexTradingAPI.place_market_order` (src/cex_trading_api.py,
lines 279-337).  `send` is the oracle for the per-exchange order methods
(`_place_binance_order` / `_place_bybit_order`); `Except.error` there models
the exception those methods re-raise, which the outer handler converts into
a failure `TradeResult`.  The first component lists the order requests
actually sent to an exchange.  The second component is the Python outcome:
`Except.error` models an uncaught exception escaping to the caller (the
`KeyError` from `self.api_keys[exchange]` for an unknown exchange name),
`Except.ok none` the implicit `None` return when every guard passes but the
exchange has no implemented order method, and `Except.ok (some r)` a
returned `TradeResult`. -/
def place_market_order (trading_enabled : Bool) (api_enabled : String → Bool)
    (send : OrderRequest → Except String TradeResult)
    (exchange symbol side : String) (amount : ℚ) :
    List OrderRequest × Except String (Option TradeResult) :=
  if trading_enabled = false then
    ([], .ok (some (trade_fail exchange symbol side amount
      "Trading not enabled or API not configured")))
  else if (known_exchanges.contains exchange) = false then
    ([], .error "KeyError")
  else if api_enabled exchange = false then
    ([], .ok (some (trade_fail exchange symbol side amount
      "Trading not enabled or API not configured")))
  else if validate_trade_amount (base_currency_of symbol) amount = false then
    ([], .ok (some (trade_fail exchange symbol side amount
      "Trade amount outside allowed limits")))
  else if exchange = "Binance" ∨ exchange = "Bybit" then
    let req : OrderRequest := ⟨exchange, symbol, side, amount⟩
    match send req with
    | .ok r => ([req], .ok (some r))
    | .error e => ([req], .ok (some (trade_fail exchange symbol side amount e)))
  else
    ([], .ok none)

/-- Embedding of `CexTradingAPI.execute_cex_arbitrage` (src/cex_trading_api.py,
lines 449-471): place the buy market order; if it failed return
`(buy_result, None)` without any further order; otherwise place the sell
market order for the buy order's `executed_amount` and return both results.
`place` abstracts `self.place_market_order`; the first component lists the
order requests in the order they were placed. -/
def execute_cex_arbitrage (place : OrderRequest → TradeResult)
    (buy_exchange sell_exchange symbol : String) (amount : ℚ) :
    List OrderRequest × TradeResult × Option TradeResult :=
  let buy_req : OrderRequest := ⟨buy_exchange, symbol, "buy", amount⟩
  let buy_result := place buy_req
  if buy_result.success = false then
    ([buy_req], buy_result, none)
  else
    let sell_req : OrderRequest := ⟨sell_exchange, symbol, "sell", buy_result.executed_amount⟩
    ([buy_req, sell_req], buy_result, some (place sell_req))

/-- The outcome classification of `UnifiedArbitrageScanner.execute_cex_arbitrage`
(src/unified_arbitrage_scanner.py, lines 304-310) applied to the pair
returned by the trading API: `True` only when the buy result succeeded, a
sell result exists and it succeeded; every other combination — including a
sell-leg failure after a successful buy leg — yields the same `False`. -/
def unified_execution_outcome (buy_result : TradeResult)
    (sell_result : Option TradeResult) : Bool :=
  buy_result.success &&
    (match sell_result with
     | some s => s.success
     | none => false)

/-- Fields of the `CexPrice` dataclass (src/cex_price_provider.py) read by
the CEX-CEX opportunity scan. -/
structure CexPrice where
  exchange : String
  bid : ℚ
  ask : ℚ
deriving DecidableEq

/-- Fields of the `UnifiedOpportunity` dataclass
(src/unified_arbitrage_scanner.py) read by the verified logic. -/
structure UnifiedOpportunity where
  type : String
  profit_percentage : ℚ
  buy_venue : String
  sell_venue : String
  buy_price : ℚ
  sell_price : ℚ
deriving DecidableEq

/-- Both directions of the CEX-CEX comparison for one exchange pair inside
`UnifiedArbitrageScanner.find_cex_cex_opportunities` (lines 203-255):
direction 1 when `b.bid > a.ask`, direction 2 when `a.bid > b.ask`, each
with the flat 0.5% fee deduction and the 0.3% minimum net profit. -/
def cex_pair_opportunities (a b : CexPrice) : List UnifiedOpportunity :=
  (if a.ask < b.bid then
    let profit_percent := (b.bid - a.ask) / a.ask * 100
    let net_profit := profit_percent - 0.5
    if 0.3 < net_profit then
      [{ type := "CEX_CEX"
         profit_percentage := net_profit
         buy_venue := a.exchange
         sell_venue := b.exchange
         buy_price := a.ask
         sell_price := b.bid }]
    else []
  else []) ++
  (if b.ask < a.bid then
    let profit_percent := (a.bid - b.ask) / b.ask * 100
    let net_profit := profit_percent - 0.5
    if 0.3 < net_profit then
      [{ type := "CEX_CEX"
         profit_percentage := net_profit
         buy_venue := b.exchange
         sell_venue := a.exchange
         buy_price := b.ask
         sell_price := a.bid }]
    else []
  else [])

/-- The per-pair body of `UnifiedArbitrageScanner.find_cex_cex_opportunities`
(src/unified_arbitrage_scanner.py, lines 183-261): with fewer than two
exchange prices the pair contributes no opportunities; otherwise every
unordered exchange pair is compared in both directions in loop order. -/
def find_cex_cex_opportunities_pair (prices : List CexPrice) :
    List UnifiedOpportunity :=
  if prices.length < 2 then []
  else (ordered_pairs prices).flatMap fun p => cex_pair_opportunities p.1 p.2

/-- Python `max(xs, key=f)` over a nonempty list: the first element with
the largest key (a later element replaces the current one only when
strictly greater). -/
def py_max_by (f : α → ℚ) (x : α) (xs : List α) : α :=
  xs.foldl (fun cur y => if f cur < f y then y else cur) x

/-- Python `min(xs, key=f)` over a nonempty list: the first element with
the smallest key. -/
def py_min_by (f : α → ℚ) (x : α) (xs : List α) : α :=
  xs.foldl (fun cur y => if f y < f cur then y else cur) x

/-- Embedding of `UnifiedArbitrageScanner.get_dex_price`
(src/unified_arbitrage_scanner.py, lines 53-85), cache aside: ask the DEX
scanner for a quote at `amount_in` and return `amount_out / amount_in`
when the output is positive; on a missing scanner reply, a non-positive
output or a raised exception return `None`.  `quote` is the oracle for
`self.dex_scanner.get_quote` at the scanned token pair. -/
def get_dex_price (quote : ℕ → Option ℕ) (amount_in : ℕ) : Option ℚ :=
  match quote amount_in with
  | some amount_out =>
    if 0 < amount_out then some ((amount_out : ℚ) / (amount_in : ℚ)) else none
  | none => none

/-- The per-pair body of `UnifiedArbitrageScanner.find_cex_dex_opportunities`
(src/unified_arbitrage_scanner.py, lines 108-180): take the best CEX bid
and ask, take ONE DEX price quoted at the fixed original
`amount_in = int(1e18)`, and emit a CEX_DEX opportunity when the DEX price
exceeds the best ask and a DEX_CEX opportunity when the best bid exceeds
the DEX price, each with the flat 0.8% fee deduction and the 0.2% minimum
net profit.  No quote is ever re-taken at a realized output amount. -/
def find_cex_dex_pair_opportunities (cex_prices : List CexPrice)
    (dex_quote : ℕ → Option ℕ) : List UnifiedOpportunity :=
  match cex_prices with
  | [] => []
  | p :: ps =>
    let best_cex_bid := py_max_by CexPrice.bid p ps
    let best_cex_ask := py_min_by CexPrice.ask p ps
    let amount_in : ℕ := 1000000000000000000
    match get_dex_price dex_quote amount_in with
    | none => []
    | some dex_price =>
      (if best_cex_ask.ask < dex_price then
        let profit_percent := (dex_price - best_cex_ask.ask) / best_cex_ask.ask * 100
        let net_profit := profit_percent - 0.8
        if 0.2 < net_profit then
          [{ type := "CEX_DEX"
             profit_percentage := net_profit
             buy_venue := best_cex_ask.exchange
             sell_venue := "DEX"
             buy_price := best_cex_ask.ask
             sell_price := dex_price }]
        else []
      else []) ++
      (if dex_price < best_cex_bid.bid then
        let profit_percent := (best_cex_bid.bid - dex_price) / dex_price * 100
        let net_profit := profit_percent - 0.8
        if 0.2 < net_profit then
          [{ type := "DEX_CEX"
             profit_percentage := net_profit
             buy_venue := "DEX"
             sell_venue := best_cex_bid.exchange
             buy_price := dex_price
             sell_price := best_cex_bid.bid }]
        else []
      else [])

/-- Embedding of `UnifiedArbitrageScanner.get_top_opportunities`
(src/unified_arbitrage_scanner.py, lines 356-365): concatenate the
per-type opportunity lists, stable-sort by `profit_percentage` descending
(Python `list.sort(key=..., reverse=True)`), and keep the first `limit`. -/
def get_top_opportunities
    (all_opportunities : List (String × List UnifiedOpportunity))
    (limit : ℕ) : List UnifiedOpportunity :=
  let all_opps := all_opportunities.foldl (fun acc p => acc ++ p.2) []
  (all_opps.mergeSort fun a b =>
    decide (b.profit_percentage ≤ a.profit_percentage)).take limit

/-- The event trace carried by a `StepRes`. -/
def StepRes.trace : StepRes → List Event
  | .ret t => t
  | .skip t => t
  | .next t => t

/-- The execution-strategy invocations recorded in a trace. -/
def executed_events (t : List Event) : List Event :=
  t.filter fun e =>
    match e with
    | .executed _ _ => true
    | _ => false

/-- Concrete scanner configuration used to evaluate the embedding on a
closed scenario: 0.8% minimum profit, 1.2% immediate tier, 60 second
execution interval, gas cost estimate of 5000 token units. -/
def cfg_demo : ScanCfg :=
  { min_profit_threshold := 8 / 1000
    immediate_execution_threshold := 12 / 1000
    min_execution_interval := 60
    gas_cost_tokens := 5000 }

/-- Concrete chain state for the closed scenario: both routers quote the
forward path `[0, 1]` at par, router 1 quotes the reverse path at
1,100,000 out and router 0 at 1,200,000 out. -/
def rpc_demo : Rpc := fun d a path =>
  if path = [0, 1] then some [a, 1000000]
  else if d = 1 then some [a, 1100000]
  else some [a, 1200000]

/-- The direction-1 opportunity (buy on DEX 0, sell on DEX 1) that
`rpc_demo` produces for 1,000,000 units in: round trip 1,000,000 →
1,000,000 → 1,100,000, fees 10,000, net profit 90,000 (9%). -/
def opp_demo1 : Opportunity :=
  { amount_in := 1000000
    dex_buy := 0
    dex_sell := 1
    price_buy := 1
    price_sell := 1
    amount_out_buy := 1000000
    amount_out_sell := 1100000
    profit_percentage := 9 / 100 }

/-- The direction-2 opportunity (buy on DEX 1, sell on DEX 0) that
`rpc_demo` produces: round trip 1,000,000 → 1,000,000 → 1,200,000, fees
10,000, net profit 190,000 (19%). -/
def opp_demo2 : Opportunity :=
  { amount_in := 1000000
    dex_buy := 1
    dex_sell := 0
    price_buy := 1
    price_sell := 1
    amount_out_buy := 1000000
    amount_out_sell := 1200000
    profit_percentage := 19 / 100 }

/-- A successful buy-leg result used in the closed exchange scenarios:
1 unit requested, 0.99 executed. -/
def buy_ok_demo : TradeResult :=
  { success := true
    order_id := some "b1"
    exchange := "Binance"
    symbol := "BTC/USDT"
    side := "buy"
    amount := 1
    price := 0
    executed_amount := 99 / 100
    executed_price := 50000
    fee := 0
    error_message := none }

/-- A failed (timed out) sell-leg result for the closed exchange scenarios. -/
def sell_fail_demo : TradeResult :=
  trade_fail "Bybit" "BTC/USDT" "sell" (99 / 100) "Request timed out"

/-- An order capability whose buy orders succeed (as `buy_ok_demo`) and
whose sell orders fail (as `sell_fail_demo`). -/
def place_demo : OrderRequest → TradeResult := fun r =>
  if r.side = "buy" then buy_ok_demo else sell_fail_demo

/-- A DEX quote oracle for the closed CEX-DEX scenario: it answers only at
the original input amount 1e18 (output 102e18, price 102); a quote at any
other input amount — in particular at any realized buy output — is
unavailable. -/
def cex_dex_quote_demo : ℕ → Option ℕ := fun a =>
  if a = 1000000000000000000 then some 102000000000000000000 else none

/-- C7: every venue price query either returns a usable quote whose final
amount is positive and whose implied price `amountOut/amountIn` lies
strictly inside the sane bound `(1e-6, 1e6)`, or returns `Unavailable`
(`none`); a transport error / raised exception (the `none` raw outcome)
always yields `Unavailable`, and the operation is a total function — it
never raises into the caller. -/
theorem get_amounts_out_safe (raw : RawCall) (amount_in : ℕ) :
    get_amounts_out none amount_in = none ∧
    (get_amounts_out raw amount_in = none ∨
      ∃ amounts, get_amounts_out raw amount_in = some amounts ∧
        0 < amounts.getLastD 0 ∧
        1 / 1000000 < (amounts.getLastD 0 : ℚ) / (amount_in : ℚ) ∧
        (amounts.getLastD 0 : ℚ) / (amount_in : ℚ) < 1000000) := by
  refine ⟨rfl, ?_⟩
  cases raw with
  | none => exact Or.inl rfl
  | some amounts =>
    simp only [get_amounts_out]
    split_ifs with h1 h2
    · exact Or.inr ⟨amounts, rfl, h1.2, h2.1, h2.2⟩
    · exact Or.inl rfl
    · exact Or.inl rfl

/-- C2: the evaluated net profit equals
`final_amount - (amount_in + flashloan_fee + dex_fees + gas_cost)`, the
total fee deduction is nonnegative, and the net profit percentage is
`real_profit / amount_in` when the profit is positive and `0` otherwise. -/
theorem profit_eval_spec (cfg : ScanCfg) (amount_in final_amount : ℕ) :
    (profit_eval cfg amount_in final_amount).1 =
      (final_amount : ℤ) -
        ((amount_in : ℤ) + ((amount_in * 2 / 1000 : ℕ) : ℤ) +
          ((amount_in * 3 / 1000 : ℕ) : ℤ) + (cfg.gas_cost_tokens : ℤ)) ∧
    (0 : ℤ) ≤ ((amount_in * 2 / 1000 : ℕ) : ℤ) + ((amount_in * 3 / 1000 : ℕ) : ℤ) +
      (cfg.gas_cost_tokens : ℤ) ∧
    (0 < (profit_eval cfg amount_in final_amount).1 →
      (profit_eval cfg amount_in final_amount).2 =
        ((profit_eval cfg amount_in final_amount).1 : ℚ) / (amount_in : ℚ)) ∧
    ((profit_eval cfg amount_in final_amount).1 ≤ 0 →
      (profit_eval cfg amount_in final_amount).2 = 0) := by
  simp only [profit_eval]
  refine ⟨by push_cast; ring, by positivity, ?_, ?_⟩
  · intro h
    rw [if_pos h]
  · intro h
    rw [if_neg (by omega)]

/-- Witness for `profit_eval_spec` at the demo round trip
1,000,000 → 1,100,000 with 10,000 total fees. -/
theorem profit_eval_spec_witness :
    0 < (profit_eval cfg_demo 1000000 1100000).1 ∧
    (profit_eval cfg_demo 1000000 1100000).2 =
      ((profit_eval cfg_demo 1000000 1100000).1 : ℚ) / (1000000 : ℚ) :=
  ⟨by norm_num [profit_eval, cfg_demo],
    (profit_eval_spec cfg_demo 1000000 1100000).2.2.1
      (by norm_num [profit_eval, cfg_demo])⟩

/-- C5: with fewer than two usable venue quotes the scanner produces no
events (and in particular no opportunity and no execution attempt) and
returns `False` with the throttle state unchanged, and the CEX-CEX scan of
a pair with fewer than two exchange prices contributes no opportunities. -/
theorem fewer_than_two_quotes_no_opportunity :
    (∀ (cfg : ScanCfg) (rpc : Rpc) (ex : Opportunity → Bool) (venues : List ℕ)
        (token_in token_out amount_in : ℕ) (now last : ℚ),
      (dex_prices rpc token_in token_out amount_in venues).length < 2 →
      scan_pair_and_execute_immediately cfg rpc ex venues token_in token_out
          amount_in now last = ([], false, last)) ∧
    (∀ prices : List CexPrice, prices.length < 2 →
      find_cex_cex_opportunities_pair prices = []) := by
  constructor
  · intro cfg rpc ex venues token_in token_out amount_in now last h
    simp only [scan_pair_and_execute_immediately]
    rw [if_neg (by omega)]
  · intro prices h
    simp only [find_cex_cex_opportunities_pair]
    rw [if_pos h]

/-- Witness for `fewer_than_two_quotes_no_opportunity`: an empty venue list
and an empty exchange price list. -/
theorem fewer_than_two_quotes_no_opportunity_witness :
    (dex_prices rpc_demo 0 1 1000000 []).length < 2 ∧
    scan_pair_and_execute_immediately cfg_demo rpc_demo (fun _ => false) []
      0 1 1000000 1000 0 = ([], false, 0) ∧
    find_cex_cex_opportunities_pair [] = [] :=
  ⟨by simp [dex_prices],
    fewer_than_two_quotes_no_opportunity.1 cfg_demo rpc_demo (fun _ => false) []
      0 1 1000000 1000 0 (by simp [dex_prices]),
    fewer_than_two_quotes_no_opportunity.2 [] (by simp)⟩

/-- C8: in the exchange-vs-exchange strategy, if the buy order fails the
result is `(buy_result, None)` and only the buy request was sent; if the
buy order succeeds, the sell market order is placed after it, on the sell
exchange, with quantity equal to the buy order's `executed_amount` — not
the originally intended `amount`. -/
theorem execute_cex_arbitrage_realized_amount
    (place : OrderRequest → TradeResult)
    (buy_exchange sell_exchange symbol : String) (amount : ℚ) :
    ((place ⟨buy_exchange, symbol, "buy", amount⟩).success = false →
      execute_cex_arbitrage place buy_exchange sell_exchange symbol amount =
        ([⟨buy_exchange, symbol, "buy", amount⟩],
          place ⟨buy_exchange, symbol, "buy", amount⟩, none)) ∧
    ((place ⟨buy_exchange, symbol, "buy", amount⟩).success = true →
      execute_cex_arbitrage place buy_exchange sell_exchange symbol amount =
        ([⟨buy_exchange, symbol, "buy", amount⟩,
          ⟨sell_exchange, symbol, "sell",
            (place ⟨buy_exchange, symbol, "buy", amount⟩).executed_amount⟩],
          place ⟨buy_exchange, symbol, "buy", amount⟩,
          some (place ⟨sell_exchange, symbol, "sell",
            (place ⟨buy_exchange, symbol, "buy", amount⟩).executed_amount⟩))) := by
  constructor
  · intro h
    simp [execute_cex_arbitrage, h]
  · intro h
    simp [execute_cex_arbitrage, h]

/-- Witness for `execute_cex_arbitrage_realized_amount`: with the demo
order capability the buy leg succeeds with executed amount 0.99 and the
sell order is placed for exactly 0.99. -/
theorem execute_cex_arbitrage_realized_amount_witness :
    (place_demo ⟨"Binance", "BTC/USDT", "buy", 1⟩).success = true ∧
    execute_cex_arbitrage place_demo "Binance" "Bybit" "BTC/USDT" 1 =
      ([⟨"Binance", "BTC/USDT", "buy", 1⟩,
        ⟨"Bybit", "BTC/USDT", "sell",
          (place_demo ⟨"Binance", "BTC/USDT", "buy", 1⟩).executed_amount⟩],
        place_demo ⟨"Binance", "BTC/USDT", "buy", 1⟩,
        some (place_demo ⟨"Bybit", "BTC/USDT", "sell",
          (place_demo ⟨"Binance", "BTC/USDT", "buy", 1⟩).executed_amount⟩)) :=
  ⟨by simp [place_demo, buy_ok_demo],
    (execute_cex_arbitrage_realized_amount place_demo "Binance" "Bybit"
      "BTC/USDT" 1).2 (by simp [place_demo, buy_ok_demo])⟩

/-- C1 counterexample: the unified scanner's CEX-DEX path turns a
candidate round trip into an Opportunity with strictly positive profit
although its sell-leg (DEX) quote was taken at the fixed original input
amount 1e18 — the only amount `cex_dex_quote_demo` answers at all — and
was never re-quoted at the buy leg's realized output; the round trip is
emitted, not rejected as zero/negative. -/
theorem cex_dex_opportunity_not_requoted :
    cex_dex_quote_demo 1000000000000000000 = some 102000000000000000000 ∧
    find_cex_dex_pair_opportunities [⟨"Binance", 100, 100⟩] cex_dex_quote_demo =
      [{ type := "CEX_DEX"
         profit_percentage := 6 / 5
         buy_venue := "Binance"
         sell_venue := "DEX"
         buy_price := 100
         sell_price := 102 }] ∧
    (0 : ℚ) < 6 / 5 := by
  refine ⟨rfl, ?_, by norm_num⟩
  norm_num [find_cex_dex_pair_opportunities, get_dex_price, cex_dex_quote_demo,
    py_max_by, py_min_by, UnifiedOpportunity.mk.injEq]

/-- Exhaustive case analysis of one direction step: either the reverse
quote is unusable or below the profit thresholds (trace empty), or an
opportunity is built from the reverse quote at the buy output and is
queued, throttled, executed successfully, or executed unsuccessfully —
with the corresponding guard conditions. -/
theorem scan_direction_shape (cfg : ScanCfg) (rpc : Rpc) (ex : Opportunity → Bool)
    (token_in token_out amount_in : ℕ) (now last : ℚ) (buy sell : ℕ × ℕ) :
    scan_direction cfg rpc ex token_in token_out amount_in now last buy sell = .next [] ∨
    ∃ amts,
      get_amounts_out (rpc sell.1 buy.2 [token_out, token_in]) buy.2 = some amts ∧
      2 ≤ amts.length ∧
      pyInt ((amount_in : ℚ) * cfg.min_profit_threshold) <
        (profit_eval cfg amount_in (amts.getLastD 0)).1 ∧
      cfg.min_profit_threshold < (profit_eval cfg amount_in (amts.getLastD 0)).2 ∧
      ((¬ cfg.immediate_execution_threshold ≤ (profit_eval cfg amount_in (amts.getLastD 0)).2 ∧
        scan_direction cfg rpc ex token_in token_out amount_in now last buy sell =
          .next [.found (mk_opportunity cfg amount_in buy sell (amts.getLastD 0)),
                 .queued (mk_opportunity cfg amount_in buy sell (amts.getLastD 0))]) ∨
      (cfg.immediate_execution_threshold ≤ (profit_eval cfg amount_in (amts.getLastD 0)).2 ∧
        now - last < cfg.min_execution_interval ∧
        scan_direction cfg rpc ex token_in token_out amount_in now last buy sell =
          .skip [.found (mk_opportunity cfg amount_in buy sell (amts.getLastD 0)),
                 .throttled (mk_opportunity cfg amount_in buy sell (amts.getLastD 0))]) ∨
      (cfg.immediate_execution_threshold ≤ (profit_eval cfg amount_in (amts.getLastD 0)).2 ∧
        ¬ now - last < cfg.min_execution_interval ∧
        ex (mk_opportunity cfg amount_in buy sell (amts.getLastD 0)) = true ∧
        scan_direction cfg rpc ex token_in token_out amount_in now last buy sell =
          .ret [.found (mk_opportunity cfg amount_in buy sell (amts.getLastD 0)),
                .executed (mk_opportunity cfg amount_in buy sell (amts.getLastD 0)) true]) ∨
      (cfg.immediate_execution_threshold ≤ (profit_eval cfg amount_in (amts.getLastD 0)).2 ∧
        ¬ now - last < cfg.min_execution_interval ∧
        ex (mk_opportunity cfg amount_in buy sell (amts.getLastD 0)) = false ∧
        scan_direction cfg rpc ex token_in token_out amount_in now last buy sell =
          .next [.found (mk_opportunity cfg amount_in buy sell (amts.getLastD 0)),
                 .executed (mk_opportunity cfg amount_in buy sell (amts.getLastD 0)) false])) := by
  cases hq : get_amounts_out (rpc sell.1 buy.2 [token_out, token_in]) buy.2 with
  | none =>
    left
    simp only [scan_direction, hq]
  | some amts =>
    simp only [scan_direction, hq]
    split_ifs with h1 h2 h3 h4 h5
    · exact Or.inr ⟨amts, rfl, h1, h2.1, h2.2, Or.inr (Or.inl ⟨h3, h4, rfl⟩)⟩
    · exact Or.inr ⟨amts, rfl, h1, h2.1, h2.2, Or.inr (Or.inr (Or.inl ⟨h3, h4, h5, rfl⟩))⟩
    · exact Or.inr ⟨amts, rfl, h1, h2.1, h2.2,
        Or.inr (Or.inr (Or.inr ⟨h3, h4, Bool.not_eq_true _ ▸ h5, rfl⟩))⟩
    · exact Or.inr ⟨amts, rfl, h1, h2.1, h2.2, Or.inl ⟨h3, rfl⟩⟩
    · exact Or.inl rfl
    · exact Or.inl rfl

/-- Both components of a pair produced by `ordered_pairs` are members of
the underlying list. -/
theorem ordered_pairs_mem : ∀ (l : List α) (p : α × α),
    p ∈ ordered_pairs l → p.1 ∈ l ∧ p.2 ∈ l := by
  intro l
  induction l with
  | nil => simp [ordered_pairs]
  | cons x xs ih =>
    intro p hp
    simp only [ordered_pairs, List.mem_append, List.mem_map] at hp
    rcases hp with ⟨y, hy, rfl⟩ | hp
    · exact ⟨List.mem_cons_self x xs, List.mem_cons_of_mem _ hy⟩
    · exact ⟨List.mem_cons_of_mem _ (ih p hp).1, List.mem_cons_of_mem _ (ih p hp).2⟩

/-- A recorded `dex_prices` entry comes from a usable first-leg quote of
that DEX: the venue's validated reply on the forward path at `amount_in`,
with the recorded output equal to the reply's final amount. -/
theorem dex_prices_mem (rpc : Rpc) (token_in token_out amount_in : ℕ)
    (venues : List ℕ) (d amt : ℕ)
    (h : (d, amt) ∈ dex_prices rpc token_in token_out amount_in venues) :
    ∃ bamts, get_amounts_out (rpc d amount_in [token_in, token_out]) amount_in = some bamts ∧
      2 ≤ bamts.length ∧ amt = bamts.getLastD 0 := by
  simp only [dex_prices, List.mem_filterMap] at h
  obtain ⟨d0, _, hmatch⟩ := h
  cases hq : get_amounts_out (rpc d0 amount_in [token_in, token_out]) amount_in with
  | none => rw [hq] at hmatch; simp at hmatch
  | some bamts =>
    rw [hq] at hmatch
    dsimp only at hmatch
    split_ifs at hmatch with hl
    simp only [Option.some.injEq, Prod.mk.injEq] at hmatch
    obtain ⟨rfl, rfl⟩ := hmatch
    exact ⟨bamts, hq, hl, rfl⟩

/-- Every event of the nested pair loops satisfies any property that holds
for all events of a single direction step whose buy and sell entries come
from the scanned price list. -/
theorem scan_pairs_loop_events
    (cfg : ScanCfg) (rpc : Rpc) (ex : Opportunity → Bool)
    (token_in token_out amount_in : ℕ) (now last : ℚ)
    (S : ℕ × ℕ → Prop) (P : Event → Prop)
    (hP : ∀ buy sell : ℕ × ℕ, S buy → S sell →
      ∀ e ∈ (scan_direction cfg rpc ex token_in token_out amount_in now last buy sell).trace,
        P e) :
    ∀ pairs : List ((ℕ × ℕ) × (ℕ × ℕ)),
      (∀ p ∈ pairs, S p.1 ∧ S p.2) →
      ∀ e ∈ (scan_pairs_loop cfg rpc ex token_in token_out amount_in now last pairs).1,
        P e := by
  intro pairs
  induction pairs with
  | nil =>
    intro _ e he
    simp [scan_pairs_loop] at he
  | cons p rest ih =>
    obtain ⟨x, y⟩ := p
    intro hS e he
    have hSx : S x := (hS (x, y) (List.mem_cons_self _ _)).1
    have hSy : S y := (hS (x, y) (List.mem_cons_self _ _)).2
    have hSrest : ∀ p ∈ rest, S p.1 ∧ S p.2 :=
      fun p hp => hS p (List.mem_cons_of_mem _ hp)
    rcases hs1 : scan_direction cfg rpc ex token_in token_out amount_in now last x y
      with t | t | t
    · rw [scan_pairs_loop, hs1] at he
      exact hP x y hSx hSy e (hs1 ▸ he)
    · rw [scan_pairs_loop, hs1] at he
      simp only [List.mem_append] at he
      rcases he with he | he
      · exact hP x y hSx hSy e (hs1 ▸ he)
      · exact ih hSrest e he
    · rcases hs2 : scan_direction cfg rpc ex token_in token_out amount_in now last y x
        with t2 | t2 | t2
      · rw [scan_pairs_loop, hs1, hs2] at he
        simp only [List.mem_append] at he
        rcases he with he | he
        · exact hP x y hSx hSy e (hs1 ▸ he)
        · exact hP y x hSy hSx e (hs2 ▸ he)
      · rw [scan_pairs_loop, hs1, hs2] at he
        simp only [List.append_assoc, List.mem_append] at he
        rcases he with he | he | he
        · exact hP x y hSx hSy e (hs1 ▸ he)
        · exact hP y x hSy hSx e (hs2 ▸ he)
        · exact ih hSrest e he
      · rw [scan_pairs_loop, hs1, hs2] at he
        simp only [List.append_assoc, List.mem_append] at he
        rcases he with he | he | he
        · exact hP x y hSx hSy e (hs1 ▸ he)
        · exact hP y x hSy hSx e (hs2 ▸ he)
        · exact ih hSrest e he

/-- Every event a direction step emits concerns exactly the opportunity
built from that step's buy entry, sell entry, and the sell venue's reverse
quote taken at the buy entry's output amount. -/
theorem scan_direction_every_event (cfg : ScanCfg) (rpc : Rpc)
    (ex : Opportunity → Bool) (token_in token_out amount_in : ℕ)
    (now last : ℚ) (buy sell : ℕ × ℕ) :
    ∀ e ∈ (scan_direction cfg rpc ex token_in token_out amount_in now last buy sell).trace,
      ∃ amts, get_amounts_out (rpc sell.1 buy.2 [token_out, token_in]) buy.2 = some amts ∧
        2 ≤ amts.length ∧
        Event.opp e = mk_opportunity cfg amount_in buy sell (amts.getLastD 0) := by
  intro e he
  rcases scan_direction_shape cfg rpc ex token_in token_out amount_in now last buy sell
    with h0 | ⟨amts, hq, hl, _, _, hc⟩
  · rw [h0] at he
    simp [StepRes.trace] at he
  · refine ⟨amts, hq, hl, ?_⟩
    rcases hc with ⟨_, heq⟩ | ⟨_, _, heq⟩ | ⟨_, _, _, heq⟩ | ⟨_, _, _, heq⟩ <;>
    · rw [heq] at he
      simp only [StepRes.trace, List.mem_cons, List.not_mem_nil, or_false] at he
      rcases he with rfl | rfl <;> rfl

/-- C1 (amended): in the DEX-DEX scanner every event of a scan — in
particular every opportunity found and every execution attempt — concerns
an opportunity whose buy output comes from the buy venue's validated
forward quote at `amount_in` and whose sell output comes from the sell
venue's validated reverse quote taken with the buy leg's realized output
as its input amount (never the original `amount_in`); its profit figure is
the fee-adjusted evaluation of exactly that chained final amount.  (The
unified scanner's CEX-DEX path does NOT satisfy this — see the C1
counterexample.) -/
theorem opportunity_sell_leg_requoted (cfg : ScanCfg) (rpc : Rpc)
    (ex : Opportunity → Bool) (venues : List ℕ)
    (token_in token_out amount_in : ℕ) (now last : ℚ) :
    ∀ e ∈ (scan_pair_and_execute_immediately cfg rpc ex venues token_in token_out
        amount_in now last).1,
      (Event.opp e).amount_in = amount_in ∧
      (∃ bamts,
        get_amounts_out (rpc (Event.opp e).dex_buy amount_in [token_in, token_out])
          amount_in = some bamts ∧
        (Event.opp e).amount_out_buy = bamts.getLastD 0) ∧
      (∃ samts,
        get_amounts_out
          (rpc (Event.opp e).dex_sell (Event.opp e).amount_out_buy [token_out, token_in])
          (Event.opp e).amount_out_buy = some samts ∧
        (Event.opp e).amount_out_sell = samts.getLastD 0 ∧
        (Event.opp e).profit_percentage =
          (profit_eval cfg amount_in (samts.getLastD 0)).2) := by
  intro e he
  by_cases hlen : 2 ≤ (dex_prices rpc token_in token_out amount_in venues).length
  · rw [scan_pair_and_execute_immediately] at he
    rw [if_pos hlen] at he
    refine scan_pairs_loop_events cfg rpc ex token_in token_out amount_in now last
      (fun p => p ∈ dex_prices rpc token_in token_out amount_in venues)
      (fun f => (Event.opp f).amount_in = amount_in ∧
        (∃ bamts,
          get_amounts_out (rpc (Event.opp f).dex_buy amount_in [token_in, token_out])
            amount_in = some bamts ∧
          (Event.opp f).amount_out_buy = bamts.getLastD 0) ∧
        (∃ samts,
          get_amounts_out
            (rpc (Event.opp f).dex_sell (Event.opp f).amount_out_buy [token_out, token_in])
            (Event.opp f).amount_out_buy = some samts ∧
          (Event.opp f).amount_out_sell = samts.getLastD 0 ∧
          (Event.opp f).profit_percentage =
            (profit_eval cfg amount_in (samts.getLastD 0)).2))
      ?_ (ordered_pairs (dex_prices rpc token_in token_out amount_in venues))
      (fun p hp => ordered_pairs_mem _ p hp) e he
    intro buy sell hSb hSs f hf
    obtain ⟨amts, hq, hl, hopp⟩ :=
      scan_direction_every_event cfg rpc ex token_in token_out amount_in now last
        buy sell f hf
    obtain ⟨bamts, hbq, _, hbamt⟩ :=
      dex_prices_mem rpc token_in token_out amount_in venues buy.1 buy.2
        (by rwa [Prod.mk.eta])
    rw [hopp]
    exact ⟨rfl, ⟨bamts, hbq, hbamt⟩, ⟨amts, hq, rfl, rfl⟩⟩
  · rw [scan_pair_and_execute_immediately, if_neg hlen] at he
    simp at he

/-- Closed evaluation of the demo scenario with a failing execution
capability: both directions of the single venue pair qualify for the
immediate tier, both execution attempts fail, the scan returns `False`,
and the throttle timestamp stays at its initial value 0. -/
theorem demo_scan_eval :
    scan_pair_and_execute_immediately cfg_demo rpc_demo (fun _ => false) [0, 1]
      0 1 1000000 1000 0 =
    ([.found opp_demo1, .executed opp_demo1 false,
      .found opp_demo2, .executed opp_demo2 false], false, 0) := by
  norm_num [scan_pair_and_execute_immediately, dex_prices, get_amounts_out,
    rpc_demo, cfg_demo, ordered_pairs, scan_pairs_loop, scan_direction,
    mk_opportunity, profit_eval, pyInt, opp_demo1, opp_demo2,
    Opportunity.mk.injEq, List.filterMap]

/-- Closed evaluation of the demo scenario with a succeeding execution
capability: the scan executes the first qualifying direction (9% net
profit) and returns immediately, never evaluating the second direction
(19% net profit); the throttle timestamp is set to the scan time. -/
theorem demo_scan_exec_eval :
    scan_pair_and_execute_immediately cfg_demo rpc_demo (fun _ => true) [0, 1]
      0 1 1000000 1000 0 =
    ([.found opp_demo1, .executed opp_demo1 true], true, 1000) := by
  norm_num [scan_pair_and_execute_immediately, dex_prices, get_amounts_out,
    rpc_demo, cfg_demo, ordered_pairs, scan_pairs_loop, scan_direction,
    mk_opportunity, profit_eval, pyInt, opp_demo1,
    Opportunity.mk.injEq, List.filterMap]

/-- Witness for `opportunity_sell_leg_requoted` at the demo scenario: the
found opportunity `opp_demo1` has its sell leg quoted at its realized buy
output of 1,000,000. -/
theorem opportunity_sell_leg_requoted_witness :
    Event.found opp_demo1 ∈
      (scan_pair_and_execute_immediately cfg_demo rpc_demo (fun _ => false) [0, 1]
        0 1 1000000 1000 0).1 ∧
    ((Event.opp (Event.found opp_demo1)).amount_in = 1000000 ∧
      (∃ bamts,
        get_amounts_out
          (rpc_demo (Event.opp (Event.found opp_demo1)).dex_buy 1000000 [0, 1])
          1000000 = some bamts ∧
        (Event.opp (Event.found opp_demo1)).amount_out_buy = bamts.getLastD 0) ∧
      (∃ samts,
        get_amounts_out
          (rpc_demo (Event.opp (Event.found opp_demo1)).dex_sell
            (Event.opp (Event.found opp_demo1)).amount_out_buy [1, 0])
          (Event.opp (Event.found opp_demo1)).amount_out_buy = some samts ∧
        (Event.opp (Event.found opp_demo1)).amount_out_sell = samts.getLastD 0 ∧
        (Event.opp (Event.found opp_demo1)).profit_percentage =
          (profit_eval cfg_demo 1000000 (samts.getLastD 0)).2)) :=
  ⟨by rw [demo_scan_eval]; simp,
    opportunity_sell_leg_requoted cfg_demo rpc_demo (fun _ => false) [0, 1]
      0 1 1000000 1000 0 (Event.found opp_demo1)
      (by rw [demo_scan_eval]; simp)⟩

/-- Under an active cooldown a direction step never returns (no `.ret`)
and never records an execution-strategy invocation. -/
theorem scan_direction_throttled (cfg : ScanCfg) (rpc : Rpc)
    (ex : Opportunity → Bool) (token_in token_out amount_in : ℕ)
    (now last : ℚ) (h : now - last < cfg.min_execution_interval)
    (buy sell : ℕ × ℕ) :
    (∀ t, scan_direction cfg rpc ex token_in token_out amount_in now last buy sell ≠ .ret t) ∧
    (∀ opp s, Event.executed opp s ∉
      (scan_direction cfg rpc ex token_in token_out amount_in now last buy sell).trace) := by
  rcases scan_direction_shape cfg rpc ex token_in token_out amount_in now last buy sell
    with h0 | ⟨amts, _, _, _, _, hc⟩
  · rw [h0]
    exact ⟨fun t ht => StepRes.noConfusion ht, by simp [StepRes.trace]⟩
  · rcases hc with ⟨_, heq⟩ | ⟨_, _, heq⟩ | ⟨_, hn, _, _⟩ | ⟨_, hn, _, _⟩
    · rw [heq]
      exact ⟨fun t ht => StepRes.noConfusion ht, by simp [StepRes.trace]⟩
    · rw [heq]
      exact ⟨fun t ht => StepRes.noConfusion ht, by simp [StepRes.trace]⟩
    · exact absurd h hn
    · exact absurd h hn

/-- Under an active cooldown the whole pair loop records no execution
invocation, returns `False`, and leaves the timestamp unchanged. -/
theorem scan_pairs_loop_throttled (cfg : ScanCfg) (rpc : Rpc)
    (ex : Opportunity → Bool) (token_in token_out amount_in : ℕ)
    (now last : ℚ) (h : now - last < cfg.min_execution_interval) :
    ∀ pairs : List ((ℕ × ℕ) × (ℕ × ℕ)),
      (∀ opp s, Event.executed opp s ∉
        (scan_pairs_loop cfg rpc ex token_in token_out amount_in now last pairs).1) ∧
      (scan_pairs_loop cfg rpc ex token_in token_out amount_in now last pairs).2.1 = false ∧
      (scan_pairs_loop cfg rpc ex token_in token_out amount_in now last pairs).2.2 = last := by
  intro pairs
  induction pairs with
  | nil => simp [scan_pairs_loop]
  | cons p rest ih =>
    obtain ⟨x, y⟩ := p
    obtain ⟨hnr1, hne1⟩ :=
      scan_direction_throttled cfg rpc ex token_in token_out amount_in now last h x y
    obtain ⟨hnr2, hne2⟩ :=
      scan_direction_throttled cfg rpc ex token_in token_out amount_in now last h y x
    rcases hs1 : scan_direction cfg rpc ex token_in token_out amount_in now last x y
      with t | t | t
    · exact absurd hs1 (hnr1 t)
    · rw [scan_pairs_loop, hs1]
      refine ⟨?_, ih.2.1, ih.2.2⟩
      intro opp s hm
      rcases List.mem_append.1 hm with hm | hm
      · exact hne1 opp s (hs1 ▸ hm)
      · exact ih.1 opp s hm
    · rcases hs2 : scan_direction cfg rpc ex token_in token_out amount_in now last y x
        with t2 | t2 | t2
      · exact absurd hs2 (hnr2 t2)
      · rw [scan_pairs_loop, hs1, hs2]
        refine ⟨?_, ih.2.1, ih.2.2⟩
        intro opp s hm
        rcases List.mem_append.1 hm with hm | hm
        · rcases List.mem_append.1 hm with hm | hm
          · exact hne1 opp s (hs1 ▸ hm)
          · exact hne2 opp s (hs2 ▸ hm)
        · exact ih.1 opp s hm
      · rw [scan_pairs_loop, hs1, hs2]
        refine ⟨?_, ih.2.1, ih.2.2⟩
        intro opp s hm
        rcases List.mem_append.1 hm with hm | hm
        · rcases List.mem_append.1 hm with hm | hm
          · exact hne1 opp s (hs1 ▸ hm)
          · exact hne2 opp s (hs2 ▸ hm)
        · exact ih.1 opp s hm

/-- C3 (amended): whenever the elapsed time since the last recorded
execution is smaller than the minimum execution interval, the scan invokes
no execution strategy at all — every qualifying opportunity is dropped,
the scan returns `False`, and the timestamp is unchanged.  (The original
claim's stronger reading — at most one execution *attempt* per interval —
fails because the timestamp is recorded only on success; see the
counterexample.) -/
theorem throttled_opportunities_dropped (cfg : ScanCfg) (rpc : Rpc)
    (ex : Opportunity → Bool) (venues : List ℕ)
    (token_in token_out amount_in : ℕ) (now last : ℚ)
    (h : now - last < cfg.min_execution_interval) :
    (∀ opp s, Event.executed opp s ∉
      (scan_pair_and_execute_immediately cfg rpc ex venues token_in token_out
        amount_in now last).1) ∧
    (scan_pair_and_execute_immediately cfg rpc ex venues token_in token_out
      amount_in now last).2.1 = false ∧
    (scan_pair_and_execute_immediately cfg rpc ex venues token_in token_out
      amount_in now last).2.2 = last := by
  simp only [scan_pair_and_execute_immediately]
  by_cases hlen : 2 ≤ (dex_prices rpc token_in token_out amount_in venues).length
  · rw [if_pos hlen]
    exact scan_pairs_loop_throttled cfg rpc ex token_in token_out amount_in now last h _
  · rw [if_neg hlen]
    simp

/-- Witness for `throttled_opportunities_dropped`: scan time 30, last
execution at 0, interval 60 — the demo scenario's qualifying opportunity
is not executed and the scan returns `False`. -/
theorem throttled_opportunities_dropped_witness :
    (30 : ℚ) - 0 < cfg_demo.min_execution_interval ∧
    Event.executed opp_demo1 false ∉
      (scan_pair_and_execute_immediately cfg_demo rpc_demo (fun _ => false) [0, 1]
        0 1 1000000 30 0).1 ∧
    (scan_pair_and_execute_immediately cfg_demo rpc_demo (fun _ => false) [0, 1]
      0 1 1000000 30 0).2.1 = false :=
  ⟨by norm_num [cfg_demo],
    (throttled_opportunities_dropped cfg_demo rpc_demo (fun _ => false) [0, 1]
      0 1 1000000 30 0 (by norm_num [cfg_demo])).1 opp_demo1 false,
    (throttled_opportunities_dropped cfg_demo rpc_demo (fun _ => false) [0, 1]
      0 1 1000000 30 0 (by norm_num [cfg_demo])).2.1⟩

/-- C3 counterexample: two distinct qualifying opportunities (both above
the 1.2% immediate tier) arise in the same scan — zero seconds apart, far
inside the 60-second interval — and BOTH lead to an execution-strategy
invocation, because the first attempt fails and a failed attempt does not
record a timestamp. -/
theorem cooldown_single_attempt_fails :
    Event.executed opp_demo1 false ∈
      (scan_pair_and_execute_immediately cfg_demo rpc_demo (fun _ => false) [0, 1]
        0 1 1000000 1000 0).1 ∧
    Event.executed opp_demo2 false ∈
      (scan_pair_and_execute_immediately cfg_demo rpc_demo (fun _ => false) [0, 1]
        0 1 1000000 1000 0).1 ∧
    opp_demo1 ≠ opp_demo2 ∧
    cfg_demo.immediate_execution_threshold ≤ opp_demo1.profit_percentage ∧
    cfg_demo.immediate_execution_threshold ≤ opp_demo2.profit_percentage := by
  rw [demo_scan_eval]
  refine ⟨by simp, by simp, ?_, ?_, ?_⟩
  · simp only [ne_eq, opp_demo1, opp_demo2, Opportunity.mk.injEq]
    norm_num
  · norm_num [cfg_demo, opp_demo1]
  · norm_num [cfg_demo, opp_demo2]

/-- The pair loop's final timestamp: set to `now` exactly when the loop
returned `True` (a successful execution), left at `last` otherwise. -/
theorem scan_pairs_loop_timestamp (cfg : ScanCfg) (rpc : Rpc)
    (ex : Opportunity → Bool) (token_in token_out amount_in : ℕ)
    (now last : ℚ) :
    ∀ pairs : List ((ℕ × ℕ) × (ℕ × ℕ)),
      ((scan_pairs_loop cfg rpc ex token_in token_out amount_in now last pairs).2.1 = true →
        (scan_pairs_loop cfg rpc ex token_in token_out amount_in now last pairs).2.2 = now) ∧
      ((scan_pairs_loop cfg rpc ex token_in token_out amount_in now last pairs).2.1 = false →
        (scan_pairs_loop cfg rpc ex token_in token_out amount_in now last pairs).2.2 = last) := by
  intro pairs
  induction pairs with
  | nil => simp [scan_pairs_loop]
  | cons p rest ih =>
    obtain ⟨x, y⟩ := p
    rcases hs1 : scan_direction cfg rpc ex token_in token_out amount_in now last x y
      with t | t | t
    · rw [scan_pairs_loop, hs1]
      exact ⟨fun _ => rfl, fun hcon => by simp at hcon⟩
    · rw [scan_pairs_loop, hs1]
      exact ih
    · rcases hs2 : scan_direction cfg rpc ex token_in token_out amount_in now last y x
        with t2 | t2 | t2
      · rw [scan_pairs_loop, hs1, hs2]
        exact ⟨fun _ => rfl, fun hcon => by simp at hcon⟩
      · rw [scan_pairs_loop, hs1, hs2]
        exact ih
      · rw [scan_pairs_loop, hs1, hs2]
        exact ih

/-- C6 (amended): the last-execution timestamp is updated — to the scan
time — exactly when the invoked execution strategy reported success (the
scan returned `True`); when every attempt failed or nothing was executed
the timestamp keeps its previous value.  (The original claim — updated
regardless of outcome — fails; see the counterexample.) -/
theorem last_execution_timestamp_on_success (cfg : ScanCfg) (rpc : Rpc)
    (ex : Opportunity → Bool) (venues : List ℕ)
    (token_in token_out amount_in : ℕ) (now last : ℚ) :
    ((scan_pair_and_execute_immediately cfg rpc ex venues token_in token_out
        amount_in now last).2.1 = true →
      (scan_pair_and_execute_immediately cfg rpc ex venues token_in token_out
        amount_in now last).2.2 = now) ∧
    ((scan_pair_and_execute_immediately cfg rpc ex venues token_in token_out
        amount_in now last).2.1 = false →
      (scan_pair_and_execute_immediately cfg rpc ex venues token_in token_out
        amount_in now last).2.2 = last) := by
  simp only [scan_pair_and_execute_immediately]
  by_cases hlen : 2 ≤ (dex_prices rpc token_in token_out amount_in venues).length
  · rw [if_pos hlen]
    exact scan_pairs_loop_timestamp cfg rpc ex token_in token_out amount_in now last _
  · rw [if_neg hlen]
    exact ⟨fun hcon => by simp at hcon, fun _ => rfl⟩

/-- Witness for `last_execution_timestamp_on_success`: in the demo
scenario with a succeeding execution capability the scan returns `True`
and the timestamp is set to the scan time 1000. -/
theorem last_execution_timestamp_on_success_witness :
    (scan_pair_and_execute_immediately cfg_demo rpc_demo (fun _ => true) [0, 1]
      0 1 1000000 1000 0).2.1 = true ∧
    (scan_pair_and_execute_immediately cfg_demo rpc_demo (fun _ => true) [0, 1]
      0 1 1000000 1000 0).2.2 = 1000 :=
  ⟨by rw [demo_scan_exec_eval],
    (last_execution_timestamp_on_success cfg_demo rpc_demo (fun _ => true) [0, 1]
      0 1 1000000 1000 0).1 (by rw [demo_scan_exec_eval])⟩

/-- C6 counterexample: in the demo scenario the execution strategy is
invoked (twice) and completes with failure, yet the final last-execution
timestamp is still the initial 0, not the scan time 1000 — the timestamp
is NOT updated regardless of outcome. -/
theorem timestamp_not_updated_on_failure :
    Event.executed opp_demo1 false ∈
      (scan_pair_and_execute_immediately cfg_demo rpc_demo (fun _ => false) [0, 1]
        0 1 1000000 1000 0).1 ∧
    (scan_pair_and_execute_immediately cfg_demo rpc_demo (fun _ => false) [0, 1]
      0 1 1000000 1000 0).2.2 = 0 ∧
    (0 : ℚ) ≠ 1000 := by
  rw [demo_scan_eval]
  exact ⟨by simp, rfl, by norm_num⟩

/-- Execution bookkeeping of a single direction step: a `.ret` trace ends
in a successful invocation (preceded only by its `found` event), a `.skip`
trace holds no invocation, and a `.next` trace holds no successful
invocation. -/
theorem scan_direction_exec_facts (cfg : ScanCfg) (rpc : Rpc)
    (ex : Opportunity → Bool) (token_in token_out amount_in : ℕ)
    (now last : ℚ) (buy sell : ℕ × ℕ) :
    (∀ t, scan_direction cfg rpc ex token_in token_out amount_in now last buy sell = .ret t →
      ∃ opp, t = [Event.found opp, Event.executed opp true]) ∧
    (∀ t, scan_direction cfg rpc ex token_in token_out amount_in now last buy sell = .skip t →
      ∀ opp s, Event.executed opp s ∉ t) ∧
    (∀ t, scan_direction cfg rpc ex token_in token_out amount_in now last buy sell = .next t →
      ∀ opp, Event.executed opp true ∉ t) := by
  rcases scan_direction_shape cfg rpc ex token_in token_out amount_in now last buy sell
    with h0 | ⟨amts, _, _, _, _, hc⟩
  · rw [h0]
    refine ⟨fun t ht => StepRes.noConfusion ht, fun t ht => StepRes.noConfusion ht, ?_⟩
    intro t ht opp
    cases ht
    simp
  · rcases hc with ⟨_, heq⟩ | ⟨_, _, heq⟩ | ⟨_, _, _, heq⟩ | ⟨_, _, _, heq⟩ <;> rw [heq]
    · refine ⟨fun t ht => StepRes.noConfusion ht, fun t ht => StepRes.noConfusion ht, ?_⟩
      intro t ht opp
      cases ht
      simp
    · refine ⟨fun t ht => StepRes.noConfusion ht, ?_, fun t ht => StepRes.noConfusion ht⟩
      intro t ht opp s
      cases ht
      simp
    · refine ⟨?_, fun t ht => StepRes.noConfusion ht, fun t ht => StepRes.noConfusion ht⟩
      intro t ht
      cases ht
      exact ⟨_, rfl⟩
    · refine ⟨fun t ht => StepRes.noConfusion ht, fun t ht => StepRes.noConfusion ht, ?_⟩
      intro t ht opp
      cases ht
      simp

/-- If the pair loop returned `True`, its trace ends at the single
successful invocation and every earlier invocation in the trace failed:
the scan acts on qualifying opportunities greedily in iteration order and
stops at the first success. -/
theorem scan_pairs_loop_first_success (cfg : ScanCfg) (rpc : Rpc)
    (ex : Opportunity → Bool) (token_in token_out amount_in : ℕ)
    (now last : ℚ) :
    ∀ pairs : List ((ℕ × ℕ) × (ℕ × ℕ)),
      (scan_pairs_loop cfg rpc ex token_in token_out amount_in now last pairs).2.1 = true →
      ∃ pre opp,
        (scan_pairs_loop cfg rpc ex token_in token_out amount_in now last pairs).1 =
          pre ++ [Event.executed opp true] ∧
        ∀ opp2 s, Event.executed opp2 s ∈ pre → s = false := by
  intro pairs
  induction pairs with
  | nil => intro h; simp [scan_pairs_loop] at h
  | cons p rest ih =>
    obtain ⟨x, y⟩ := p
    intro hres
    obtain ⟨hret1, hskip1, hnext1⟩ :=
      scan_direction_exec_facts cfg rpc ex token_in token_out amount_in now last x y
    obtain ⟨hret2, hskip2, hnext2⟩ :=
      scan_direction_exec_facts cfg rpc ex token_in token_out amount_in now last y x
    rcases hs1 : scan_direction cfg rpc ex token_in token_out amount_in now last x y
      with t | t | t
    · obtain ⟨opp, hts⟩ := hret1 t hs1
      rw [scan_pairs_loop, hs1]
      refine ⟨[Event.found opp], opp, by rw [hts]; rfl, ?_⟩
      intro opp2 s hm
      simp at hm
    · rw [scan_pairs_loop, hs1] at hres ⊢
      dsimp only at hres ⊢
      obtain ⟨pre, opp, htr, hpre⟩ := ih hres
      refine ⟨t ++ pre, opp, by rw [htr, List.append_assoc], ?_⟩
      intro opp2 s hm
      rcases List.mem_append.1 hm with hm | hm
      · exact absurd hm (hskip1 t hs1 opp2 s)
      · exact hpre opp2 s hm
    · rcases hs2 : scan_direction cfg rpc ex token_in token_out amount_in now last y x
        with t2 | t2 | t2
      · obtain ⟨opp, hts⟩ := hret2 t2 hs2
        rw [scan_pairs_loop, hs1, hs2]
        refine ⟨t ++ [Event.found opp], opp, by rw [hts]; simp, ?_⟩
        intro opp2 s hm
        rcases List.mem_append.1 hm with hm | hm
        · cases s with
          | true => exact absurd hm (hnext1 t hs1 opp2)
          | false => rfl
        · simp at hm
      · rw [scan_pairs_loop, hs1, hs2] at hres ⊢
        dsimp only at hres ⊢
        obtain ⟨pre, opp, htr, hpre⟩ := ih hres
        refine ⟨t ++ t2 ++ pre, opp, by rw [htr]; simp, ?_⟩
        intro opp2 s hm
        rcases List.mem_append.1 hm with hm | hm
        · rcases List.mem_append.1 hm with hm | hm
          · cases s with
            | true => exact absurd hm (hnext1 t hs1 opp2)
            | false => rfl
          · exact absurd hm (hskip2 t2 hs2 opp2 s)
        · exact hpre opp2 s hm
      · rw [scan_pairs_loop, hs1, hs2] at hres ⊢
        dsimp only at hres ⊢
        obtain ⟨pre, opp, htr, hpre⟩ := ih hres
        refine ⟨t ++ t2 ++ pre, opp, by rw [htr]; simp, ?_⟩
        intro opp2 s hm
        rcases List.mem_append.1 hm with hm | hm
        · rcases List.mem_append.1 hm with hm | hm
          · cases s with
            | true => exact absurd hm (hnext1 t hs1 opp2)
            | false => rfl
          · cases s with
            | true => exact absurd hm (hnext2 t2 hs2 opp2)
            | false => rfl
        · exact hpre opp2 s hm

/-- C4 (amended): the scanner processes venue-pair directions in iteration
order and invokes execution greedily — when a scan reports success its
trace ends at the first successful invocation, every earlier invocation
having failed, so the acted-on opportunity is the first qualifying one in
iteration order, not necessarily the one with the highest net profit
percentage (see the counterexample).  Ranking by descending
`profit_percentage` is performed only by `get_top_opportunities`, whose
output is always sorted in descending order. -/
theorem greedy_execution_and_sorted_ranking :
    (∀ (cfg : ScanCfg) (rpc : Rpc) (ex : Opportunity → Bool) (venues : List ℕ)
        (token_in token_out amount_in : ℕ) (now last : ℚ),
      (scan_pair_and_execute_immediately cfg rpc ex venues token_in token_out
        amount_in now last).2.1 = true →
      ∃ pre opp,
        (scan_pair_and_execute_immediately cfg rpc ex venues token_in token_out
          amount_in now last).1 = pre ++ [Event.executed opp true] ∧
        ∀ opp2 s, Event.executed opp2 s ∈ pre → s = false) ∧
    (∀ (all_opportunities : List (String × List UnifiedOpportunity)) (limit : ℕ),
      (get_top_opportunities all_opportunities limit).Pairwise
        (fun a b => b.profit_percentage ≤ a.profit_percentage)) := by
  constructor
  · intro cfg rpc ex venues token_in token_out amount_in now last hres
    rw [scan_pair_and_execute_immediately] at hres ⊢
    by_cases hlen : 2 ≤ (dex_prices rpc token_in token_out amount_in venues).length
    · rw [if_pos hlen] at hres ⊢
      exact scan_pairs_loop_first_success cfg rpc ex token_in token_out amount_in
        now last _ hres
    · rw [if_neg hlen] at hres
      simp at hres
  · intro all_opportunities limit
    simp only [get_top_opportunities]
    refine List.Pairwise.sublist (List.take_sublist _ _) ?_
    refine List.Pairwise.imp ?_ (List.sorted_mergeSort ?_ ?_ _)
    · intro a b hab
      simpa using hab
    · intro a b c hab hbc
      simp only [decide_eq_true_eq] at hab hbc ⊢
      exact le_trans hbc hab
    · intro a b
      simp only [Bool.or_eq_true, decide_eq_true_eq]
      exact le_total b.profit_percentage a.profit_percentage

/-- Witness for `greedy_execution_and_sorted_ranking`: the successful demo
scan ends at its single successful invocation, and `get_top_opportunities`
on a two-element list is sorted descending. -/
theorem greedy_execution_and_sorted_ranking_witness :
    (∃ pre opp,
      (scan_pair_and_execute_immediately cfg_demo rpc_demo (fun _ => true) [0, 1]
        0 1 1000000 1000 0).1 = pre ++ [Event.executed opp true] ∧
      ∀ opp2 s, Event.executed opp2 s ∈ pre → s = false) ∧
    (get_top_opportunities
      [("CEX_CEX", [{ type := "CEX_CEX", profit_percentage := 1, buy_venue := "A",
                      sell_venue := "B", buy_price := 1, sell_price := 2 },
                    { type := "CEX_CEX", profit_percentage := 2, buy_venue := "B",
                      sell_venue := "C", buy_price := 1, sell_price := 3 }])] 10).Pairwise
      (fun a b => b.profit_percentage ≤ a.profit_percentage) :=
  ⟨greedy_execution_and_sorted_ranking.1 cfg_demo rpc_demo (fun _ => true) [0, 1]
      0 1 1000000 1000 0 (by rw [demo_scan_exec_eval]),
    greedy_execution_and_sorted_ranking.2 _ 10⟩

/-- C4 counterexample: in the demo scenario the scanner invokes the
execution strategy on `opp_demo1` (9% net profit) even though the same
scan evaluates `opp_demo2` (19% net profit) for the same asset pair — the
acted-on opportunity is not the one with the highest net profit
percentage among the evaluated venue-pair combinations. -/
theorem best_opportunity_not_selected :
    Event.executed opp_demo1 false ∈
      (scan_pair_and_execute_immediately cfg_demo rpc_demo (fun _ => false) [0, 1]
        0 1 1000000 1000 0).1 ∧
    Event.found opp_demo2 ∈
      (scan_pair_and_execute_immediately cfg_demo rpc_demo (fun _ => false) [0, 1]
        0 1 1000000 1000 0).1 ∧
    opp_demo1.profit_percentage < opp_demo2.profit_percentage := by
  rw [demo_scan_eval]
  refine ⟨by simp, by simp, ?_⟩
  norm_num [opp_demo1, opp_demo2]

/-- C9 evaluation at the failing input: with a successful buy leg and a
timed-out sell leg, the trading API places exactly the two orders (no
automatic reversal of the completed buy leg is attempted — the request
list has no further entry), and the unified scanner's outcome for this
partial fill is the bare `false`, identical to the outcome of a completely
failed arbitrage — no distinct `PartialFill` execution result exists
anywhere in the result type. -/
theorem sell_leg_failure_not_distinct :
    execute_cex_arbitrage place_demo "Binance" "Bybit" "BTC/USDT" 1 =
      ([⟨"Binance", "BTC/USDT", "buy", 1⟩,
        ⟨"Bybit", "BTC/USDT", "sell", 99 / 100⟩],
        buy_ok_demo, some sell_fail_demo) ∧
    buy_ok_demo.success = true ∧
    sell_fail_demo.success = false ∧
    unified_execution_outcome buy_ok_demo (some sell_fail_demo) = false ∧
    unified_execution_outcome
      (trade_fail "Binance" "BTC/USDT" "buy" 1 "Connection error") none = false := by
  refine ⟨?_, rfl, rfl, rfl, rfl⟩
  simp [execute_cex_arbitrage, place_demo, buy_ok_demo, sell_fail_demo, trade_fail]

/-- C10 (amended): every guard branch of `place_market_order` returns a
failure `TradeResult` with `success = False`, `executed_amount = 0` and a
non-empty error message, sending no order; with all guards passed a
`TradeResult` is always returned (exceptions caught) for Binance and
Bybit, while for the other configured exchanges the call returns Python
`None`, and for an unknown exchange name with trading enabled a `KeyError`
escapes to the caller. -/
theorem place_market_order_guards
    (api_enabled : String → Bool)
    (send : OrderRequest → Except String TradeResult)
    (exchange symbol side : String) (amount : ℚ) :
    (∀ msg, (trade_fail exchange symbol side amount msg).success = false ∧
      (trade_fail exchange symbol side amount msg).executed_amount = 0 ∧
      (trade_fail exchange symbol side amount msg).error_message = some msg) ∧
    (place_market_order false api_enabled send exchange symbol side amount =
      ([], .ok (some (trade_fail exchange symbol side amount
        "Trading not enabled or API not configured")))) ∧
    (known_exchanges.contains exchange = true → api_enabled exchange = false →
      place_market_order true api_enabled send exchange symbol side amount =
        ([], .ok (some (trade_fail exchange symbol side amount
          "Trading not enabled or API not configured")))) ∧
    (known_exchanges.contains exchange = true → api_enabled exchange = true →
      validate_trade_amount (base_currency_of symbol) amount = false →
      place_market_order true api_enabled send exchange symbol side amount =
        ([], .ok (some (trade_fail exchange symbol side amount
          "Trade amount outside allowed limits")))) ∧
    ((exchange = "Binance" ∨ exchange = "Bybit") → api_enabled exchange = true →
      validate_trade_amount (base_currency_of symbol) amount = true →
      ∃ r, place_market_order true api_enabled send exchange symbol side amount =
        ([⟨exchange, symbol, side, amount⟩], .ok (some r))) ∧
    (known_exchanges.contains exchange = true →
      ¬(exchange = "Binance" ∨ exchange = "Bybit") →
      api_enabled exchange = true →
      validate_trade_amount (base_currency_of symbol) amount = true →
      place_market_order true api_enabled send exchange symbol side amount =
        ([], .ok none)) ∧
    (known_exchanges.contains exchange = false →
      place_market_order true api_enabled send exchange symbol side amount =
        ([], .error "KeyError")) := by
  refine ⟨fun msg => ⟨rfl, rfl, rfl⟩, ?_, ?_, ?_, ?_, ?_, ?_⟩
  · simp [place_market_order]
  · intro hk he
    have hk2 : exchange ∈ known_exchanges := by simpa using hk
    simp [place_market_order, hk2, he]
  · intro hk he hv
    have hk2 : exchange ∈ known_exchanges := by simpa using hk
    simp [place_market_order, hk2, he, hv]
  · intro hbb he hv
    have hk2 : exchange ∈ known_exchanges := by rcases hbb with rfl | rfl <;> decide
    cases hsend : send ⟨exchange, symbol, side, amount⟩ with
    | ok r => exact ⟨r, by simp [place_market_order, hk2, he, hv, hbb, hsend]⟩
    | error e =>
      exact ⟨trade_fail exchange symbol side amount e,
        by simp [place_market_order, hk2, he, hv, hbb, hsend]⟩
  · intro hk hnbb he hv
    have hk2 : exchange ∈ known_exchanges := by simpa using hk
    simp [place_market_order, hk2, he, hv, hnbb]
  · intro hk
    have hk2 : exchange ∉ known_exchanges := by simpa using hk
    simp [place_market_order, hk2]

/-- Witness for `place_market_order_guards`: the globally-disabled guard
returns the failure result, the hard-coded BTC bound [0.001, 0.1] rejects
a 1 BTC order with the outside-limits failure result, and a Binance call
for 0.05 BTC with all guards passed returns a `TradeResult`. -/
theorem place_market_order_guards_witness :
    place_market_order false (fun _ => true)
      (fun _ => .error "boom") "Binance" "BTC/USDT" "buy" (1 / 20) =
      ([], .ok (some (trade_fail "Binance" "BTC/USDT" "buy" (1 / 20)
        "Trading not enabled or API not configured"))) ∧
    place_market_order true (fun _ => true)
      (fun _ => .error "boom") "Binance" "BTC/USDT" "buy" 1 =
      ([], .ok (some (trade_fail "Binance" "BTC/USDT" "buy" 1
        "Trade amount outside allowed limits"))) ∧
    (∃ r, place_market_order true (fun _ => true)
      (fun _ => .ok buy_ok_demo) "Binance" "BTC/USDT" "buy" (1 / 20) =
      ([⟨"Binance", "BTC/USDT", "buy", 1 / 20⟩], .ok (some r))) :=
  ⟨(place_market_order_guards (fun _ => true)
      (fun _ => .error "boom") "Binance" "BTC/USDT" "buy" (1 / 20)).2.1,
    (place_market_order_guards (fun _ => true)
      (fun _ => .error "boom") "Binance" "BTC/USDT" "buy" 1).2.2.2.1
      (by decide) rfl
      (by rw [show base_currency_of "BTC/USDT" = "BTC" from by decide]
          norm_num [validate_trade_amount, min_trade_amount, max_trade_amount]),
    (place_market_order_guards (fun _ => true)
      (fun _ => .ok buy_ok_demo) "Binance" "BTC/USDT" "buy" (1 / 20)).2.2.2.2.1
      (Or.inl rfl) rfl
      (by rw [show base_currency_of "BTC/USDT" = "BTC" from by decide]
          norm_num [validate_trade_amount, min_trade_amount, max_trade_amount])⟩

/-- C10 counterexample: a call for the configured exchange OKX with
trading enabled, the API enabled, and an amount of 0.05 BTC — inside the
hard-coded BTC bound [0.001, 0.1] — sends no order and returns Python
`None`, not a `TradeResult`. -/
theorem place_market_order_returns_none :
    place_market_order true (fun _ => true)
      (fun _ => .error "unreachable") "OKX" "BTC/USDT" "buy" (1 / 20) =
      ([], .ok none) := by
  have hk : ("OKX" : String) ∈ known_exchanges := by decide
  have hb : base_currency_of "BTC/USDT" = "BTC" := by decide
  have hv : validate_trade_amount (base_currency_of "BTC/USDT") ((20 : ℚ)⁻¹) = true := by
    rw [hb]
    norm_num [validate_trade_amount, min_trade_amount, max_trade_amount]
  have hno : ¬(("OKX" : String) = "Binance" ∨ ("OKX" : String) = "Bybit") := by decide
  simp [place_market_order, hk, hv, hno]

end FlashArb
